import Mathlib

/-!
Verification of the evaluation engine of `metrics.py` (class `Metrics`):
the density-based coverage/likelihood metric for continuous data
(`_evaluate_vec`), the classifier-based mode metrics for discrete-labelled
image data (`_evaluate_mnist`, `_evaluate_mnist3`), and the `evaluate`
dispatcher.  Numeric tensors are modelled over `ℝ`; a sample point is a
3-dimensional tensor `(dim1, dim2, dim3)` modelled as nested lists, exactly
the shape `(num_points, dim1, dim2, dim3)` arrays carry per point.
External collaborators (the sklearn Gaussian `KernelDensity`, numpy
reductions, the pre-trained TensorFlow classifier, `utils.js_div_uniform`)
are modelled by their documented semantics, stated at each definition.
-/

noncomputable section

open scoped Classical

/-- Model of one sample point: a `(dim1, dim2, dim3)` numeric tensor,
as in the `(num_points, dim1, dim2, dim3)` batches of `metrics.py`. -/
def Point : Type := List (List (List ℝ))

/-- Flattening of a point, as performed by `np.reshape(points, [num, -1])`
(row-major order). -/
def flat (p : Point) : List ℝ := (p.map List.flatten).flatten

/-- Squared Euclidean distance of two flattened points: the value
`np.sum((x - y) ** 2)` over all coordinates.  A sum over axes `(1, 2, 3)`
of a batch equals this sum over the flattened coordinates. -/
def sqDistL (x y : List ℝ) : ℝ := (List.zipWith (fun a b => (a - b) ^ 2) x y).sum

/-- Model of `np.mean` of a 1-dimensional array. -/
def mean (l : List ℝ) : ℝ := l.sum / (l.length : ℝ)

/-- Ascending sort of a real list, as `np.sort` produces. -/
def sortR (l : List ℝ) : List ℝ := l.insertionSort (· ≤ ·)

/-- Model of `np.median`: middle element of the sorted list for odd length,
average of the two middle elements for even length. -/
def npMedian (l : List ℝ) : ℝ :=
  let s := sortR l
  if l.length % 2 = 1 then s.getD (l.length / 2) 0
  else (s.getD (l.length / 2 - 1) 0 + s.getD (l.length / 2) 0) / 2

/-- Model of `np.percentile(a, q)` with the default linear interpolation:
with `a` sorted ascending and `r = (len - 1) * q / 100`, the result is
`a[⌊r⌋] + (r - ⌊r⌋) * (a[⌊r⌋ + 1] - a[⌊r⌋])`. -/
def npPercentile (l : List ℝ) (q : ℝ) : ℝ :=
  let s := sortR l
  let r : ℝ := ((l.length : ℝ) - 1) * q / 100
  let k : ℕ := ⌊r⌋₊
  s.getD k 0 + (r - (k : ℝ)) * (s.getD (k + 1) (s.getD k 0) - s.getD k 0)

/-- Model of `np.bincount(l, minlength)` for non-negative integer input:
entry `i` counts the occurrences of `i`; the length is the maximum of
`minlength` and (largest entry + 1). -/
def npBincount (l : List ℕ) (minlength : ℕ) : List ℕ :=
  (List.range (max minlength (l.foldr (fun a m => max (a + 1) m) 0))).map
    (fun i => l.count i)

/-- Log-density of the sklearn Gaussian `KernelDensity` fitted with
bandwidth `h` on the flattened points `pts`, scored at the flattened point
`x` (`KernelDensity(kernel='gaussian', bandwidth=h).fit(pts)` followed by
`score_samples([x])`): the log of the average over the fitted points of the
Gaussian kernel `(2 π h²)^(-d/2) · exp(-‖x - p‖² / (2 h²))`. -/
def kdeScore (h : ℝ) (pts : List (List ℝ)) (x : List ℝ) : ℝ :=
  Real.log ((pts.map (fun p => Real.exp (-(sqDistL x p) / (2 * h ^ 2)))).sum /
    ((pts.length : ℝ) * (2 * Real.pi * h ^ 2) ^ ((x.length : ℝ) / 2)))

/-- Distances between consecutive fake points (`metrics.py` lines 111-113):
`np.sqrt(np.sum((fake_points[:-1] - fake_points[1:]) ** 2, axis=(1, 2, 3)))`. -/
def consecDists (fake_points : List Point) : List ℝ :=
  List.zipWith (fun a b => Real.sqrt (sqDistL (flat a) (flat b))) fake_points fake_points.tail

/-- Initial bandwidth (`metrics.py` line 114): the median of the distances
between consecutive fake points. -/
def initBandwidth (fake_points : List Point) : ℝ := npMedian (consecDists fake_points)

/-- Candidate-bandwidth grid (`metrics.py` line 120):
`bandwidth * (2. ** (np.arange(14) - 7.))`. -/
def bGrid (bandwidth : ℝ) : List ℝ :=
  (List.range 14).map (fun (k : ℕ) => bandwidth * (2 : ℝ) ^ ((k : ℤ) - 7))

/-- Bandwidth selection (`metrics.py` lines 117-130): when a validation
batch is supplied, scan the candidate grid keeping the first candidate that
strictly improves the running best mean validation log-density, starting
from the initial bandwidth with best score `-1000000.`; otherwise keep the
initial bandwidth.  `fakeF` and `valF` are the flattened fitting and
validation batches. -/
def selectBandwidth (bandwidth : ℝ) (fakeF : List (List ℝ))
    (valF : Option (List (List ℝ))) : ℝ :=
  match valF with
  | none => bandwidth
  | some v =>
    ((bGrid bandwidth).foldl
      (fun acc b =>
        if acc.2 < mean (v.map (kdeScore b fakeF)) then (b, mean (v.map (kdeScore b fakeF)))
        else acc)
      (bandwidth, -1000000)).1

/-- Model of `Metrics._evaluate_vec` (`metrics.py` lines 103-148): fit the
kernel density on the flattened fake points with the selected bandwidth,
take the 5th percentile of the fake points' own log-densities as threshold,
and return the mean real log-density together with
`1 - mean(real_points_log_density <= threshold)`.  This is the value-level
model on the non-degenerate domain (non-empty batches): on an empty batch
the Python computation does not produce a value but dies inside the numeric
backend (`np.reshape` raises `ValueError`), an error path modelled
separately by `evaluate_vec_run` below. -/
def evaluate_vec (real_points fake_points : List Point)
    (validation_fake_points : Option (List Point)) : ℝ × ℝ :=
  let fakeF := fake_points.map flat
  let realF := real_points.map flat
  let valF := validation_fake_points.map (fun v => v.map flat)
  let bandwidth := selectBandwidth (initBandwidth fake_points) fakeF valF
  let model_log_density := fakeF.map (kdeScore bandwidth fakeF)
  let threshold := npPercentile model_log_density 5
  let real_points_log_density := realF.map (kdeScore bandwidth fakeF)
  let ratio_not_covered :=
    mean (real_points_log_density.map (fun x => if x ≤ threshold then (1 : ℝ) else 0))
  (mean real_points_log_density, 1 - ratio_not_covered)

/-- Bandwidth that `_evaluate_vec` ends up fitting the density with: the
initial median-distance estimate refined by `selectBandwidth` over the
flattened batches. -/
def chosenBandwidth (fake_points : List Point)
    (validation_fake_points : Option (List Point)) : ℝ :=
  selectBandwidth (initBandwidth fake_points) (fake_points.map flat)
    (validation_fake_points.map (fun v => v.map flat))

/-- Configuration options consumed by the evaluation engine: the entries of
the `opts` dictionary that `evaluate`, `_evaluate_mnist` and
`_evaluate_mnist3` read. -/
structure Opts where
  dataset : String
  input_normalize_sym : Bool
  tf_run_batch_size : ℕ
  digit_classification_threshold : ℝ
  mnist3_to_channels : Bool

/-- Result tuple of one evaluation call: `(log_p, C)` for the continuous
evaluator, `(JS, C, C_actual, conf)` for the discrete evaluators. -/
inductive MetricResult where
  | cont (log_p C : ℝ)
  | disc (JS C C_actual conf : ℝ)

/-- Rescaling of a point from the symmetric range to `[0, 1]`
(`points / 2. + 0.5`, `metrics.py` lines 160-166). -/
def rescale_to_01 (p : Point) : Point :=
  p.map (fun row => row.map (fun pix => pix.map (fun x => x / 2 + 1 / 2)))

/-- Batch slices of the classification loop (`metrics.py` lines 193-200):
`batches_num = ceil(num / batch_size)` slices, slice `idx` being
`points[idx * batch_size : min(num, (idx + 1) * batch_size)]`. -/
def chunkSlices {α : Type _} (l : List α) (batch_size : ℕ) : List (List α) :=
  (List.range ((l.length + batch_size - 1) / batch_size)).map
    (fun i => (l.take (min l.length ((i + 1) * batch_size))).drop (i * batch_size))

/-- Classification stage of `_evaluate_mnist` (`metrics.py` lines 192-212).
The pre-trained classifier is an external collaborator; per its contract it
deterministically assigns each image a predicted digit in the 10-label
space and a top class-probability (`trained_net` and `prob_max`), so it is
modelled by the parameter `clf`.  The loop classifies the points in batch
slices and concatenates (`np.hstack`) the per-batch predicted digits,
probabilities, and `prob > thresh` confidence flags, in input order. -/
def mnist_classification (opts : Opts) (clf : Point → Fin 10 × ℝ)
    (points : List Point) : List (Fin 10) × List ℝ × List Bool :=
  let slices := chunkSlices points opts.tf_run_batch_size
  ((slices.map (fun b => b.map (fun p => (clf p).1))).flatten,
   (slices.map (fun b => b.map (fun p => (clf p).2))).flatten,
   (slices.map (fun b => b.map
     (fun p => decide (opts.digit_classification_threshold < (clf p).2)))).flatten)

/-- Pointwise Kullback-Leibler sum with the `0 · log 0 = 0` convention:
`Σ pᵢ log(pᵢ / qᵢ)` over the zipped entries, a term being `0` when `pᵢ = 0`. -/
def klD (p q : List ℝ) : ℝ :=
  ((p.zip q).map (fun ab => if ab.1 = 0 then 0 else ab.1 * Real.log (ab.1 / ab.2))).sum

/-- Modelled from the spec: `utils.js_div_uniform` is imported from the
repository module `utils`, which is not among the sources; per the spec
(§4.4 and glossary) it builds the empirical histogram of its integer
argument over `num_cat` labels (relative frequencies of an `np.bincount`)
and returns the Jensen-Shannon divergence between that histogram `phat`
and the uniform distribution over the `num_cat` labels, in the symmetric
bounded formulation `JS(P, Q) = ½ KL(P ∥ M) + ½ KL(Q ∥ M)` with
`M = (P + Q) / 2` and the `0 · log 0 = 0` convention. -/
def js_div_uniform (digits : List ℕ) (num_cat : ℕ) : ℝ :=
  let bc := npBincount digits num_cat
  let phat : List ℝ := bc.map (fun (c : ℕ) => (c : ℝ) / ((bc.sum : ℕ) : ℝ))
  let pu : List ℝ := List.replicate bc.length ((1 : ℝ) / (num_cat : ℝ))
  let m := List.zipWith (fun a b => (a + b) / 2) phat pu
  (klD phat m + klD pu m) / 2

/-- Model of `Metrics._evaluate_mnist` (`metrics.py` lines 150-263).  The
entry assertion `len(fake_points) > 0` is the error case; the remaining
assertions guard the loading of the external classifier artifact and are
absorbed into the collaborator `clf`.  When `input_normalize_sym` is set
the fake points are rescaled to `[0, 1]` before classification (the
rescaling of `real_points` and `validation_fake_points`, and the undo
rescaling afterwards, do not reach the returned metrics).  The mode-gallery
plotting side effect does not affect the returned tuple and is omitted. -/
def evaluate_mnist (opts : Opts) (real_points fake_points : List Point)
    (clf : Point → Fin 10 × ℝ) : Except String MetricResult :=
  if fake_points.length = 0 then Except.error "No fake digits to evaluate" else
  let fake2 := if opts.input_normalize_sym then fake_points.map rescale_to_01 else fake_points
  let cls := mnist_classification opts clf fake2
  let digits := cls.1
  let result_probs := cls.2.1
  let result_is_confident := cls.2.2
  let conf := mean result_probs
  if result_is_confident.count true = 0 then
    Except.ok (MetricResult.disc 2 0 0 conf)
  else
    let confident_digits :=
      (digits.zip result_is_confident).filterMap
        (fun dc => if dc.2 = true then some dc.1 else none)
    let C_actual := ((confident_digits.dedup.length : ℕ) : ℝ) / 10
    let JS := js_div_uniform (digits.map Fin.val) 10
    let phat0 := npBincount (confident_digits.map Fin.val) 10
    let phat : List ℝ := phat0.map (fun (c : ℕ) => (c : ℝ) / ((phat0.sum : ℕ) : ℝ))
    let threshold := npPercentile phat 5
    let ratio_not_covered :=
      mean (phat.map (fun x => if x ≤ threshold then (1 : ℝ) else 0))
    Except.ok (MetricResult.disc JS (1 - ratio_not_covered) C_actual conf)

/-- Sub-image split of `_evaluate_mnist3` (`metrics.py` lines 323-326):
`np.split(batch, 3, axis=3)` splits each image's innermost (channel) axis
in three equal parts when `mnist3_to_channels` is set, and
`np.split(batch, 3, axis=2)` splits the width (second) axis otherwise;
splitting the batch along an axis ≥ 1 acts imagewise. -/
def split3 (opts : Opts) (p : Point) : Point × Point × Point :=
  if opts.mnist3_to_channels then
    let k := ((p.headD []).headD []).length / 3
    (p.map (fun row => row.map (fun pix => pix.take k)),
     p.map (fun row => row.map (fun pix => (pix.drop k).take k)),
     p.map (fun row => row.map (fun pix => (pix.drop (2 * k)).take k)))
  else
    let k := (p.headD []).length / 3
    (p.map (fun row => row.take k),
     p.map (fun row => (row.drop k).take k),
     p.map (fun row => (row.drop (2 * k)).take k))

/-- Classification stage of `_evaluate_mnist3` (`metrics.py` lines
314-348): each point's three sub-images are classified independently by
the same external classifier; the composite label is
`100 * res1 + 10 * res2 + res3`, the probability rows are
`np.column_stack((prob1, prob2, prob3))`, and a point is confident when
all three probabilities exceed the threshold
(`(prob1 > thresh) * (prob2 > thresh) * (prob3 > thresh)`). -/
def mnist3_classification (opts : Opts) (clf : Point → Fin 10 × ℝ)
    (points : List Point) : List ℕ × List (List ℝ) × List Bool :=
  let slices := chunkSlices points opts.tf_run_batch_size
  let t := opts.digit_classification_threshold
  ((slices.map (fun b => b.map (fun p =>
      let s := split3 opts p
      100 * (((clf s.1).1 : ℕ)) + 10 * (((clf s.2.1).1 : ℕ)) + (((clf s.2.2).1 : ℕ))))).flatten,
   (slices.map (fun b => b.map (fun p =>
      let s := split3 opts p
      [(clf s.1).2, (clf s.2.1).2, (clf s.2.2).2]))).flatten,
   (slices.map (fun b => b.map (fun p =>
      let s := split3 opts p
      (decide (t < (clf s.1).2) && decide (t < (clf s.2.1).2) &&
       decide (t < (clf s.2.2).2))))).flatten)

/-- Model of `Metrics._evaluate_mnist3` (`metrics.py` lines 265-398),
structured as `_evaluate_mnist` but over composite triple-digit labels:
the label space has size 1000, `conf` is `np.mean` of the `num × 3`
probability matrix (the mean over all sub-scores of all points), and
`js_div_uniform` is called with its default label-space size 1000. -/
def evaluate_mnist3 (opts : Opts) (real_points fake_points : List Point)
    (clf : Point → Fin 10 × ℝ) : Except String MetricResult :=
  if fake_points.length = 0 then Except.error "No fake digits to evaluate" else
  let fake2 := if opts.input_normalize_sym then fake_points.map rescale_to_01 else fake_points
  let cls := mnist3_classification opts clf fake2
  let digits := cls.1
  let result_probs := cls.2.1
  let result_is_confident := cls.2.2
  let conf := mean result_probs.flatten
  if result_is_confident.count true = 0 then
    Except.ok (MetricResult.disc 2 0 0 conf)
  else
    let confident_digits :=
      (digits.zip result_is_confident).filterMap
        (fun dc => if dc.2 = true then some dc.1 else none)
    let C_actual := ((confident_digits.dedup.length : ℕ) : ℝ) / 1000
    let JS := js_div_uniform digits 1000
    let phat0 := npBincount confident_digits 1000
    let phat : List ℝ := phat0.map (fun (c : ℕ) => (c : ℝ) / ((phat0.sum : ℕ) : ℝ))
    let threshold := npPercentile phat 5
    let ratio_not_covered :=
      mean (phat.map (fun x => if x ≤ threshold then (1 : ℝ) else 0))
    Except.ok (MetricResult.disc JS (1 - ratio_not_covered) C_actual conf)

/-- Model of `Metrics.evaluate` (`metrics.py` lines 69-101): dispatch on
the dataset kind; `gmm` and `circle_gmm` go to `_evaluate_vec` with the
validation batch, `mnist` and `mnist3` go to the discrete evaluators with
`validation_fake_points=None`, and any other kind logs
"Can not evaluate, sorry..." and returns `None` (modelled `Except.ok none`). -/
def evaluate (opts : Opts) ( step : ℕ) (real_points fake_points : List Point)
    (validation_fake_points : Option (List Point)) (clf : Point → Fin 10 × ℝ) :
    Except String (Option MetricResult) :=
  if opts.dataset = "gmm" then
    Except.ok (some (MetricResult.cont
      (evaluate_vec real_points fake_points validation_fake_points).1
      (evaluate_vec real_points fake_points validation_fake_points).2))
  else if opts.dataset = "circle_gmm" then
    Except.ok (some (MetricResult.cont
      (evaluate_vec real_points fake_points validation_fake_points).1
      (evaluate_vec real_points fake_points validation_fake_points).2))
  else if opts.dataset = "mnist" then
    (evaluate_mnist opts real_points fake_points clf).map some
  else if opts.dataset = "mnist3" then
    (evaluate_mnist3 opts real_points fake_points clf).map some
  else
    Except.ok none

/-- Instance state of a `Metrics` object: `self.l2s` (loss history) and
`self.Qz` (latent coordinates), both `None` in `__init__` and only read by
the picture-plotting routine. -/
structure MetricsState where
  l2s : Option (List ℝ)
  Qz : Option (List (List ℝ))

/-- State-threaded form of `Metrics.evaluate`: the method bodies of
`evaluate`, `_evaluate_vec`, `_evaluate_mnist` and `_evaluate_mnist3`
assign no instance attribute (the only `self` access is the read of
plotting state inside `_make_plots_pics`, which does not reach the
returned metrics), so the threaded state passes through unchanged. -/
def evaluate_s (st : MetricsState) (opts : Opts) ( step : ℕ)
    (real_points fake_points : List Point)
    (validation_fake_points : Option (List Point)) (clf : Point → Fin 10 × ℝ) :
    MetricsState × Except String (Option MetricResult) :=
  (st, evaluate opts step real_points fake_points validation_fake_points clf)

/-- Projection of the `JS` component of a discrete evaluation outcome. -/
def jsOfResult (r : Except String MetricResult) : Option ℝ :=
  match r with
  | Except.ok (MetricResult.disc JS _ _ _) => some JS
  | _ => none

/-- Model of the numpy semantics of `np.reshape(batch, [num, -1])`, the
reshape `_evaluate_vec` applies to each batch before every density fit and
scoring call: with `num = 0` the `-1` dimension cannot be inferred from a
size-0 array and numpy raises
`ValueError: cannot reshape array of size 0 into shape (0,newaxis)`;
otherwise the batch is flattened pointwise. -/
def npReshapeFlat (points : List Point) : Except String (List (List ℝ)) :=
  if points.length = 0 then
    Except.error "cannot reshape array of size 0 into shape (0,newaxis)"
  else Except.ok (points.map flat)

/-- Error-aware model of `_evaluate_vec`: `evaluate_vec` gives the value
computed on the non-degenerate domain, and this wrapper adds the numpy
error path in the order the reshapes are reached in the source — the fake
batch at the first `kde.fit` (inside the grid search when a validation
batch is supplied, at the final fit otherwise), then the validation batch
at the first `score_samples` of the grid search, then the real batch at
the final scoring.  A reshape `ValueError` propagates and no result is
returned. -/
def evaluate_vec_run (real_points fake_points : List Point)
    (validation_fake_points : Option (List Point)) : Except String (ℝ × ℝ) :=
  match npReshapeFlat fake_points with
  | Except.error e => Except.error e
  | Except.ok _ =>
    match (match validation_fake_points with
           | some v => (npReshapeFlat v).map (fun _ => ())
           | none => Except.ok ()) with
    | Except.error e => Except.error e
    | Except.ok _ =>
      match npReshapeFlat real_points with
      | Except.error e => Except.error e
      | Except.ok _ =>
        Except.ok (evaluate_vec real_points fake_points validation_fake_points)

/-- Model of `Metrics.evaluate` including the backend error path of the
continuous evaluators (which `evaluate` collapses): identical dispatch,
with `gmm`/`circle_gmm` routed through `evaluate_vec_run`. -/
def evaluate_run (opts : Opts) ( step : ℕ) (real_points fake_points : List Point)
    (validation_fake_points : Option (List Point)) (clf : Point → Fin 10 × ℝ) :
    Except String (Option MetricResult) :=
  if opts.dataset = "gmm" then
    (evaluate_vec_run real_points fake_points validation_fake_points).map
      (fun p => some (MetricResult.cont p.1 p.2))
  else if opts.dataset = "circle_gmm" then
    (evaluate_vec_run real_points fake_points validation_fake_points).map
      (fun p => some (MetricResult.cont p.1 p.2))
  else if opts.dataset = "mnist" then
    (evaluate_mnist opts real_points fake_points clf).map some
  else if opts.dataset = "mnist3" then
    (evaluate_mnist3 opts real_points fake_points clf).map some
  else
    Except.ok none

/-- Concrete fake batch used to probe the single-label evaluator: eleven
points, the k-th (k = 1..11) consisting of k rows of one blank pixel. -/
def fakeC2 : List Point :=
  [List.replicate 1 [[0]], List.replicate 2 [[0]], List.replicate 3 [[0]],
   List.replicate 4 [[0]], List.replicate 5 [[0]], List.replicate 6 [[0]],
   List.replicate 7 [[0]], List.replicate 8 [[0]], List.replicate 9 [[0]],
   List.replicate 10 [[0]], List.replicate 11 [[0]]]

/-- Concrete classifier used to probe the single-label evaluator: a point
with k rows is assigned digit `min 9 (k - 1)` with confidence 1 when
k ≤ 10 and confidence 0 otherwise. -/
def clfC2 : Point → Fin 10 × ℝ :=
  fun p => (⟨min 9 (p.length - 1), by omega⟩, if p.length ≤ 10 then (1 : ℝ) else 0)

/-! General lemmas about the embedded numpy/list operations. -/

theorem take_min_self {α : Type _} (l : List α) (n : ℕ) :
    l.take (min l.length n) = l.take n := by
  rcases le_total l.length n with h | h
  · rw [min_eq_left h, List.take_length, List.take_of_length_le h]
  · rw [min_eq_right h]

theorem flatten_range_take_drop {α : Type _} (l : List α) (bs : ℕ) (m : ℕ) :
    ((List.range m).map (fun i => (l.take ((i + 1) * bs)).drop (i * bs))).flatten
      = l.take (m * bs) := by
  induction m with
  | zero => simp
  | succ m ih =>
    rw [List.range_succ, List.map_append, List.flatten_append, ih]
    simp only [List.map_cons, List.map_nil, List.flatten_cons, List.flatten_nil,
      List.append_nil]
    rw [List.drop_take]
    have h1 : (m + 1) * bs - m * bs = bs := by
      have : (m + 1) * bs = m * bs + bs := by ring
      omega
    have h2 : (m + 1) * bs = m * bs + bs := by ring
    rw [h1, h2, List.take_add]

theorem le_ceil_mul (n bs : ℕ) (hbs : 0 < bs) : n ≤ (n + bs - 1) / bs * bs := by
  have key : ∀ X r : ℕ, X + r = n + bs - 1 → r < bs → n ≤ X := by
    intro X r h1 h2; omega
  have h := key (bs * ((n + bs - 1) / bs)) ((n + bs - 1) % bs)
    (Nat.div_add_mod _ _) (Nat.mod_lt _ hbs)
  rw [Nat.mul_comm]
  exact h

theorem chunkSlices_flatten {α : Type _} (l : List α) (bs : ℕ) (hbs : 0 < bs) :
    (chunkSlices l bs).flatten = l := by
  unfold chunkSlices
  simp only [take_min_self]
  rw [flatten_range_take_drop]
  exact List.take_of_length_le (le_ceil_mul l.length bs hbs)

theorem chunkSlices_map_flatten {α β : Type _} (l : List α) (bs : ℕ) (hbs : 0 < bs)
    (f : α → β) : ((chunkSlices l bs).map (fun b => b.map f)).flatten = l.map f := by
  rw [← List.map_flatten, chunkSlices_flatten l bs hbs]

theorem sum_indicator_eq_countP {α : Type _} (p : α → Prop) (l : List α) :
    (l.map (fun x => if p x then (1 : ℝ) else 0)).sum
      = ((l.countP (fun x => decide (p x)) : ℕ) : ℝ) := by
  induction l with
  | nil => simp
  | cons a t ih =>
    by_cases h : p a
    · simp only [List.map_cons, List.sum_cons, if_pos h, ih,
        List.countP_cons, decide_eq_true h]
      push_cast
      ring
    · simp only [List.map_cons, List.sum_cons, if_neg h, ih,
        List.countP_cons, decide_eq_false h]
      push_cast
      ring

theorem mean_indicator_eq (l : List ℝ) (t : ℝ) :
    mean (l.map (fun x => if x ≤ t then (1 : ℝ) else 0))
      = ((l.countP (fun x => decide (x ≤ t)) : ℕ) : ℝ) / (l.length : ℝ) := by
  unfold mean
  rw [sum_indicator_eq_countP (fun x => x ≤ t) l, List.length_map]

/-- Outcome of the strict-improvement scan of `selectBandwidth`: either no
candidate beat the initial score and the accumulator is returned unchanged,
or the result is a list element achieving the maximal score. -/
theorem foldl_best_spec (f : ℝ → ℝ) :
    ∀ (l : List ℝ) (b0 s0 : ℝ),
      (l.foldl (fun acc b => if acc.2 < f b then (b, f b) else acc) (b0, s0) = (b0, s0)
          ∧ ∀ b ∈ l, f b ≤ s0)
        ∨ ((l.foldl (fun acc b => if acc.2 < f b then (b, f b) else acc) (b0, s0)).1 ∈ l
          ∧ (l.foldl (fun acc b => if acc.2 < f b then (b, f b) else acc) (b0, s0)).2
              = f (l.foldl (fun acc b => if acc.2 < f b then (b, f b) else acc) (b0, s0)).1
          ∧ s0 < (l.foldl (fun acc b => if acc.2 < f b then (b, f b) else acc) (b0, s0)).2
          ∧ ∀ b ∈ l, f b
              ≤ (l.foldl (fun acc b => if acc.2 < f b then (b, f b) else acc) (b0, s0)).2) := by
  intro l
  induction l with
  | nil => intro b0 s0; left; exact ⟨rfl, by simp⟩
  | cons b t ih =>
    intro b0 s0
    by_cases hb : s0 < f b
    · have hstep : List.foldl (fun acc c => if acc.2 < f c then (c, f c) else acc)
          ((b0, s0)) (b :: t)
          = List.foldl (fun acc c => if acc.2 < f c then (c, f c) else acc) ((b, f b)) t := by
        simp [List.foldl_cons, if_pos hb]
      rcases ih b (f b) with ⟨heq, hall⟩ | ⟨hmem, hre, hlt, hall⟩
      · right
        rw [hstep, heq]
        exact ⟨List.mem_cons_self _ _, rfl, hb, by
          intro c hc
          rcases List.mem_cons.mp hc with rfl | hct
          · exact le_refl _
          · exact hall c hct⟩
      · right
        rw [hstep]
        refine ⟨List.mem_cons_of_mem _ hmem, hre, lt_trans hb hlt, ?_⟩
        intro c hc
        rcases List.mem_cons.mp hc with rfl | hct
        · exact le_of_lt hlt
        · exact hall c hct
    · have hstep : List.foldl (fun acc c => if acc.2 < f c then (c, f c) else acc)
          ((b0, s0)) (b :: t)
          = List.foldl (fun acc c => if acc.2 < f c then (c, f c) else acc) ((b0, s0)) t := by
        simp [List.foldl_cons, if_neg hb]
      rcases ih b0 s0 with ⟨heq, hall⟩ | ⟨hmem, hre, hlt, hall⟩
      · left
        rw [hstep]
        refine ⟨heq, ?_⟩
        intro c hc
        rcases List.mem_cons.mp hc with rfl | hct
        · exact not_lt.mp hb
        · exact hall c hct
      · right
        rw [hstep]
        refine ⟨List.mem_cons_of_mem _ hmem, hre, hlt, ?_⟩
        intro c hc
        rcases List.mem_cons.mp hc with rfl | hct
        · exact le_of_lt (lt_of_le_of_lt (not_lt.mp hb) hlt)
        · exact hall c hct

/-- Gibbs-type bound with the `0 · log 0 = 0` convention: each KL term
dominates `aᵢ - bᵢ`. -/
theorem klTerm_ge (a b : ℝ) (ha : 0 ≤ a) (hb : 0 ≤ b) (hab : a ≠ 0 → 0 < b) :
    a - b ≤ if a = 0 then 0 else a * Real.log (a / b) := by
  by_cases h : a = 0
  · rw [if_pos h, h]
    linarith
  · rw [if_neg h]
    have ha0 : 0 < a := lt_of_le_of_ne ha (Ne.symm h)
    have hb0 : 0 < b := hab h
    have hba : 0 < b / a := div_pos hb0 ha0
    have hlog : Real.log (b / a) ≤ b / a - 1 := Real.log_le_sub_one_of_pos hba
    have hmul : a * Real.log (b / a) ≤ a * (b / a - 1) :=
      mul_le_mul_of_nonneg_left hlog (le_of_lt ha0)
    have hinv : Real.log (a / b) = -Real.log (b / a) := by
      rw [← Real.log_inv]
      congr 1
      field_simp
    have hsimp : a * (b / a - 1) = b - a := by
      field_simp
    rw [hinv]
    nlinarith [hmul, hsimp]

theorem klPairs_ge (l : List (ℝ × ℝ))
    (h : ∀ ab ∈ l, 0 ≤ ab.1 ∧ 0 ≤ ab.2 ∧ (ab.1 ≠ 0 → 0 < ab.2)) :
    (l.map Prod.fst).sum - (l.map Prod.snd).sum
      ≤ (l.map (fun ab => if ab.1 = 0 then 0 else ab.1 * Real.log (ab.1 / ab.2))).sum := by
  induction l with
  | nil => simp
  | cons ab t ih =>
    have hab := h ab (List.mem_cons_self _ _)
    have ht := ih (fun x hx => h x (List.mem_cons_of_mem _ hx))
    have hterm := klTerm_ge ab.1 ab.2 hab.1 hab.2.1 hab.2.2
    simp only [List.map_cons, List.sum_cons]
    linarith

theorem klD_ge (p q : List ℝ)
    (h : ∀ ab ∈ p.zip q, 0 ≤ ab.1 ∧ 0 ≤ ab.2 ∧ (ab.1 ≠ 0 → 0 < ab.2)) :
    ((p.zip q).map Prod.fst).sum - ((p.zip q).map Prod.snd).sum ≤ klD p q :=
  klPairs_ge (p.zip q) h

theorem foldr_max_le (l : List ℕ) (m : ℕ) (h : ∀ x ∈ l, x < m) :
    l.foldr (fun a k => max (a + 1) k) 0 ≤ m := by
  induction l with
  | nil => simp
  | cons a t ih =>
    simp only [List.foldr_cons]
    have ha := h a (List.mem_cons_self _ _)
    have ht := ih (fun x hx => h x (List.mem_cons_of_mem _ hx))
    omega

theorem npBincount_length (l : List ℕ) (m : ℕ) (hm : ∀ x ∈ l, x < m) :
    (npBincount l m).length = m := by
  unfold npBincount
  rw [List.length_map, List.length_range]
  exact max_eq_left (foldr_max_le l m hm)

theorem mean_singleton (x : ℝ) : mean [x] = x := by
  simp [mean]

/-- With a positive batch size, the batched classification loop of
`_evaluate_mnist` computes exactly the pointwise classification of the
whole batch, in order. -/
theorem mnist_classification_eq (opts : Opts) (clf : Point → Fin 10 × ℝ)
    (points : List Point) (hbs : 0 < opts.tf_run_batch_size) :
    mnist_classification opts clf points
      = (points.map (fun p => (clf p).1),
         points.map (fun p => (clf p).2),
         points.map (fun p =>
           decide (opts.digit_classification_threshold < (clf p).2))) := by
  simp only [mnist_classification]
  rw [chunkSlices_map_flatten _ _ hbs, chunkSlices_map_flatten _ _ hbs,
    chunkSlices_map_flatten _ _ hbs]

/-- With a positive batch size, the batched classification loop of
`_evaluate_mnist3` computes exactly the pointwise composite
classification of the whole batch, in order. -/
theorem mnist3_classification_eq (opts : Opts) (clf : Point → Fin 10 × ℝ)
    (points : List Point) (hbs : 0 < opts.tf_run_batch_size) :
    mnist3_classification opts clf points
      = (points.map (fun p =>
           100 * (((clf (split3 opts p).1).1 : ℕ))
             + 10 * (((clf (split3 opts p).2.1).1 : ℕ))
             + (((clf (split3 opts p).2.2).1 : ℕ))),
         points.map (fun p =>
           [(clf (split3 opts p).1).2, (clf (split3 opts p).2.1).2,
            (clf (split3 opts p).2.2).2]),
         points.map (fun p =>
           decide (opts.digit_classification_threshold < (clf (split3 opts p).1).2)
             && decide (opts.digit_classification_threshold < (clf (split3 opts p).2.1).2)
             && decide (opts.digit_classification_threshold < (clf (split3 opts p).2.2).2))) := by
  simp only [mnist3_classification]
  rw [chunkSlices_map_flatten _ _ hbs, chunkSlices_map_flatten _ _ hbs,
    chunkSlices_map_flatten _ _ hbs]

theorem count_true_ne_zero {α : Type _} (l : List α) (p : α → Prop)
    (h : ∃ x ∈ l, p x) : ¬((l.map (fun x => decide (p x))).count true = 0) := by
  obtain ⟨x, hx, hpx⟩ := h
  intro hc
  rw [List.count_eq_zero] at hc
  exact hc (List.mem_map.mpr ⟨x, hx, decide_eq_true hpx⟩)

/-- On a 10-element list, the smallest element is at most the (linearly
interpolated) 5th percentile, so at least one element is counted below the
threshold. -/
theorem countP_le_percentile_pos (l : List ℝ) (hlen : l.length = 10) :
    0 < l.countP (fun x => decide (x ≤ npPercentile l 5)) := by
  have hslen : (sortR l).length = 10 := by
    rw [sortR, List.length_insertionSort, hlen]
  have hsorted : List.Sorted (· ≤ ·) (sortR l) := List.sorted_insertionSort _ l
  have h0 : 0 < (sortR l).length := by omega
  have h1 : 1 < (sortR l).length := by omega
  have h01 : (sortR l).get ⟨0, h0⟩ ≤ (sortR l).get ⟨1, h1⟩ :=
    hsorted.rel_get_of_lt (by simp [Fin.mk_lt_mk])
  have hd0 : (sortR l).getD 0 0 = (sortR l).get ⟨0, h0⟩ := by
    rw [List.getD_eq_getElem _ _ h0, List.get_eq_getElem]
  have hd1 : (sortR l).getD 1 ((sortR l).getD 0 0) = (sortR l).get ⟨1, h1⟩ := by
    rw [List.getD_eq_getElem _ _ h1, List.get_eq_getElem]
  have hthr : (sortR l).getD 0 0 ≤ npPercentile l 5 := by
    simp only [npPercentile]
    rw [hlen]
    have hfl : ⌊(((10 : ℕ) : ℝ) - 1) * 5 / 100⌋₊ = 0 :=
      Nat.floor_eq_zero.mpr (by norm_num)
    rw [hfl]
    have hle : (sortR l).getD 0 0 ≤ (sortR l).getD (0 + 1) ((sortR l).getD 0 0) := by
      rw [show (0 : ℕ) + 1 = 1 from rfl, hd1, hd0]
      exact h01
    have hq : (0 : ℝ) ≤ (((10 : ℕ) : ℝ) - 1) * 5 / 100 - ((0 : ℕ) : ℝ) := by norm_num
    nlinarith [hle, hq]
  rw [List.countP_pos_iff]
  refine ⟨(sortR l).getD 0 0, ?_, decide_eq_true hthr⟩
  have hmem : (sortR l).getD 0 0 ∈ sortR l := by
    rw [List.getD_eq_getElem _ _ h0]
    exact List.getElem_mem h0
  rw [sortR] at hmem
  exact (List.mem_insertionSort _).mp hmem

/-- The percentile-thresholded coverage computed from a 10-bin histogram is
at most 9/10 and never 1. -/
theorem phat_coverage_bound (cd : List (Fin 10)) :
    1 - mean (((npBincount (cd.map Fin.val) 10).map
          (fun (c : ℕ) => (c : ℝ) / (((npBincount (cd.map Fin.val) 10).sum : ℕ) : ℝ))).map
        (fun x => if x ≤ npPercentile ((npBincount (cd.map Fin.val) 10).map
            (fun (c : ℕ) => (c : ℝ) / (((npBincount (cd.map Fin.val) 10).sum : ℕ) : ℝ))) 5
          then (1 : ℝ) else 0)) ≤ 9 / 10
    ∧ 1 - mean (((npBincount (cd.map Fin.val) 10).map
          (fun (c : ℕ) => (c : ℝ) / (((npBincount (cd.map Fin.val) 10).sum : ℕ) : ℝ))).map
        (fun x => if x ≤ npPercentile ((npBincount (cd.map Fin.val) 10).map
            (fun (c : ℕ) => (c : ℝ) / (((npBincount (cd.map Fin.val) 10).sum : ℕ) : ℝ))) 5
          then (1 : ℝ) else 0)) ≠ 1 := by
  set phat := (npBincount (cd.map Fin.val) 10).map
    (fun (c : ℕ) => (c : ℝ) / (((npBincount (cd.map Fin.val) 10).sum : ℕ) : ℝ)) with hphat
  have hplen : phat.length = 10 := by
    rw [hphat, List.length_map]
    refine npBincount_length _ _ ?_
    intro x hx
    simp only [List.mem_map] at hx
    obtain ⟨d, _, rfl⟩ := hx
    exact d.isLt
  have hcnt := countP_le_percentile_pos phat hplen
  have hm := mean_indicator_eq phat (npPercentile phat 5)
  rw [hm, hplen]
  have hcnt1 : (1 : ℝ) ≤ ((phat.countP
      (fun x => decide (x ≤ npPercentile phat 5)) : ℕ) : ℝ) := by
    exact_mod_cast hcnt
  constructor
  · linarith
  · intro heq
    linarith

theorem bGrid_mem_pos {bw x : ℝ} (hbw : 0 < bw) (hx : x ∈ bGrid bw) : 0 < x := by
  unfold bGrid at hx
  rw [List.mem_map] at hx
  obtain ⟨k, _, rfl⟩ := hx
  exact mul_pos hbw (zpow_pos (by norm_num) _)

theorem chosenBandwidth_some (fake_points : List Point) (v : List Point) :
    chosenBandwidth fake_points (some v)
      = ((bGrid (initBandwidth fake_points)).foldl
          (fun acc b =>
            if acc.2 < mean ((v.map flat).map (kdeScore b (fake_points.map flat))) then
              (b, mean ((v.map flat).map (kdeScore b (fake_points.map flat))))
            else acc)
          (initBandwidth fake_points, -1000000)).1 := rfl

/-! Claim theorems. -/

/-- C8: for every dataset kind outside {gmm, circle_gmm, mnist, mnist3},
`evaluate` returns `None` (the silent fallback) without raising an error
and without computing any metric. -/
theorem C8_evaluate_unsupported_none (opts : Opts) ( step : ℕ)
    (real_points fake_points : List Point)
    (validation_fake_points : Option (List Point)) (clf : Point → Fin 10 × ℝ)
    (h1 : opts.dataset ≠ "gmm") (h2 : opts.dataset ≠ "circle_gmm")
    (h3 : opts.dataset ≠ "mnist") (h4 : opts.dataset ≠ "mnist3") :
    evaluate opts step real_points fake_points validation_fake_points clf
      = Except.ok none := by
  unfold evaluate
  rw [if_neg h1, if_neg h2, if_neg h3, if_neg h4]

/-- Witness for C8, at dataset kind `cifar10`. -/
theorem C8_evaluate_unsupported_none_witness :
    (Opts.mk "cifar10" false 100 (999/1000) false).dataset ≠ "gmm"
    ∧ (Opts.mk "cifar10" false 100 (999/1000) false).dataset ≠ "circle_gmm"
    ∧ (Opts.mk "cifar10" false 100 (999/1000) false).dataset ≠ "mnist"
    ∧ (Opts.mk "cifar10" false 100 (999/1000) false).dataset ≠ "mnist3"
    ∧ evaluate (Opts.mk "cifar10" false 100 (999/1000) false) 0 [] [] none
        (fun _ => ((0 : Fin 10), (0 : ℝ))) = Except.ok none :=
  ⟨by decide, by decide, by decide, by decide,
    C8_evaluate_unsupported_none _ 0 [] [] none _
      (by decide) (by decide) (by decide) (by decide)⟩

/-- C9: every evaluator call is a pure function of its inputs: with the
`Metrics` instance state threaded explicitly, a continuous-kind
(`gmm`/`circle_gmm`) call leaves the state unchanged and its result does
not depend on the incoming state — in particular no bandwidth cached by a
previous call can influence the result. -/
theorem C9_evaluate_pure (st1 st2 : MetricsState) (opts : Opts) ( step : ℕ)
    (real_points fake_points : List Point)
    (validation_fake_points : Option (List Point)) (clf : Point → Fin 10 × ℝ)
    (hds : opts.dataset = "gmm" ∨ opts.dataset = "circle_gmm") :
    evaluate_s st1 opts step real_points fake_points validation_fake_points clf
      = (st1,
        (evaluate_s st2 opts step real_points fake_points validation_fake_points clf).2) :=
  rfl

/-- Witness for C9: two calls with distinct instance states. -/
theorem C9_evaluate_pure_witness :
    ((Opts.mk "gmm" false 100 (999/1000) false).dataset = "gmm"
      ∨ (Opts.mk "gmm" false 100 (999/1000) false).dataset = "circle_gmm")
    ∧ evaluate_s (MetricsState.mk (some [1]) none) (Opts.mk "gmm" false 100 (999/1000) false)
        0 [] [] none (fun _ => ((0 : Fin 10), (0 : ℝ)))
      = (MetricsState.mk (some [1]) none,
        (evaluate_s (MetricsState.mk none none) (Opts.mk "gmm" false 100 (999/1000) false)
          0 [] [] none (fun _ => ((0 : Fin 10), (0 : ℝ)))).2) :=
  ⟨Or.inl rfl, C9_evaluate_pure _ _ _ 0 [] [] none _ (Or.inl rfl)⟩

/-- On non-empty batches (fake, real, and validation when supplied) no
reshape fails and the error-aware continuous evaluator computes exactly
the value-level model. -/
theorem evaluate_vec_run_ok (real_points fake_points : List Point)
    (validation_fake_points : Option (List Point))
    (hf : ¬fake_points.length = 0) (hr : ¬real_points.length = 0)
    (hv : ∀ v, validation_fake_points = some v → ¬v.length = 0) :
    evaluate_vec_run real_points fake_points validation_fake_points
      = Except.ok (evaluate_vec real_points fake_points validation_fake_points) := by
  rcases validation_fake_points with _ | v
  · unfold evaluate_vec_run npReshapeFlat
    rw [if_neg hf, if_neg hr]
  · unfold evaluate_vec_run npReshapeFlat
    rw [if_neg hf, if_neg hr]
    simp [hv v rfl, Except.map]

/-- C7: on an empty fake batch every supported evaluator path fails with an
error and returns no metric result: the discrete evaluators (`mnist`,
`mnist3`) raise the entry assertion "No fake digits to evaluate", and the
continuous evaluators (`gmm`, `circle_gmm`) die at the first reshape of the
empty fake batch, where numpy raises `ValueError` (the median of the empty
distance array before it only emits a nan warning, not a result). -/
theorem C7_empty_fake_always_errors (opts : Opts) ( step : ℕ)
    (real_points : List Point) (validation_fake_points : Option (List Point))
    (clf : Point → Fin 10 × ℝ)
    (hds : opts.dataset = "gmm" ∨ opts.dataset = "circle_gmm"
      ∨ opts.dataset = "mnist" ∨ opts.dataset = "mnist3") :
    ∃ e, evaluate_run opts step real_points [] validation_fake_points clf
      = Except.error e := by
  rcases hds with h | h | h | h
  · refine ⟨"cannot reshape array of size 0 into shape (0,newaxis)", ?_⟩
    unfold evaluate_run
    rw [h, if_pos rfl]
    rfl
  · refine ⟨"cannot reshape array of size 0 into shape (0,newaxis)", ?_⟩
    unfold evaluate_run
    rw [h, if_neg (by decide : ¬("circle_gmm" = "gmm")), if_pos rfl]
    rfl
  · refine ⟨"No fake digits to evaluate", ?_⟩
    unfold evaluate_run
    rw [h, if_neg (by decide : ¬("mnist" = "gmm")),
      if_neg (by decide : ¬("mnist" = "circle_gmm")), if_pos rfl]
    rfl
  · refine ⟨"No fake digits to evaluate", ?_⟩
    unfold evaluate_run
    rw [h, if_neg (by decide : ¬("mnist3" = "gmm")),
      if_neg (by decide : ¬("mnist3" = "circle_gmm")),
      if_neg (by decide : ¬("mnist3" = "mnist")), if_pos rfl]
    rfl

/-- Witness for C7, at all four supported dataset kinds. -/
theorem C7_empty_fake_always_errors_witness :
    ((Opts.mk "gmm" false 100 (999/1000) false).dataset = "gmm"
      ∨ (Opts.mk "gmm" false 100 (999/1000) false).dataset = "circle_gmm"
      ∨ (Opts.mk "gmm" false 100 (999/1000) false).dataset = "mnist"
      ∨ (Opts.mk "gmm" false 100 (999/1000) false).dataset = "mnist3")
    ∧ (∃ e, evaluate_run (Opts.mk "gmm" false 100 (999/1000) false) 0 [[[[0]]]] [] none
        (fun _ => ((0 : Fin 10), (0 : ℝ))) = Except.error e)
    ∧ (∃ e, evaluate_run (Opts.mk "circle_gmm" false 100 (999/1000) false) 0 [[[[0]]]] [] none
        (fun _ => ((0 : Fin 10), (0 : ℝ))) = Except.error e)
    ∧ (∃ e, evaluate_run (Opts.mk "mnist" false 100 (999/1000) false) 0 [[[[0]]]] [] none
        (fun _ => ((0 : Fin 10), (0 : ℝ))) = Except.error e)
    ∧ (∃ e, evaluate_run (Opts.mk "mnist3" false 100 (999/1000) false) 0 [[[[0]]]] [] none
        (fun _ => ((0 : Fin 10), (0 : ℝ))) = Except.error e) :=
  ⟨Or.inl rfl,
   C7_empty_fake_always_errors _ 0 _ none _ (Or.inl rfl),
   C7_empty_fake_always_errors _ 0 _ none _ (Or.inr (Or.inl rfl)),
   C7_empty_fake_always_errors _ 0 _ none _ (Or.inr (Or.inr (Or.inl rfl))),
   C7_empty_fake_always_errors _ 0 _ none _ (Or.inr (Or.inr (Or.inr rfl)))⟩

/-- C3 (amended): for a fake batch of size at least 2 whose initial
median-of-consecutive-distances estimate is positive, the bandwidth the
density estimator ends up using is strictly positive — the refinement only
rescales the initial estimate by powers of 2. -/
theorem C3_bandwidth_pos (fake_points : List Point)
    (validation_fake_points : Option (List Point))
    (hlen : 2 ≤ fake_points.length) (hmed : 0 < initBandwidth fake_points) :
    0 < chosenBandwidth fake_points validation_fake_points := by
  rcases validation_fake_points with _ | v
  · exact hmed
  · rw [chosenBandwidth_some]
    rcases foldl_best_spec
        (fun b => mean ((v.map flat).map (kdeScore b (fake_points.map flat))))
        (bGrid (initBandwidth fake_points)) (initBandwidth fake_points) (-1000000) with
      ⟨heq, _⟩ | ⟨hmem, _, _, _⟩
    · rw [heq]
      exact hmed
    · exact bGrid_mem_pos hmed hmem

/-- Witness for C3 (amended) on the fake batch ([[[0]]], [[[1]]]). -/
theorem C3_bandwidth_pos_witness :
    2 ≤ ([[[[(0 : ℝ)]]], [[[1]]]] : List Point).length
    ∧ 0 < initBandwidth [[[[(0 : ℝ)]]], [[[1]]]]
    ∧ 0 < chosenBandwidth [[[[(0 : ℝ)]]], [[[1]]]] none := by
  have hmed : 0 < initBandwidth [[[[(0 : ℝ)]]], [[[1]]]] := by
    unfold initBandwidth consecDists npMedian
    norm_num [sortR, List.insertionSort, List.orderedInsert, flat, sqDistL,
      Real.sqrt_one]
  exact ⟨by norm_num, hmed, C3_bandwidth_pos _ none (by norm_num) hmed⟩

/-- C3 counterexample: a fake batch of two identical points has median
consecutive distance 0, so the bandwidth used is 0 — not strictly
positive. -/
theorem C3_bandwidth_zero_counterexample :
    2 ≤ ([[[[(0 : ℝ)]]], [[[0]]]] : List Point).length
    ∧ chosenBandwidth [[[[(0 : ℝ)]]], [[[0]]]] none = 0 := by
  refine ⟨by norm_num, ?_⟩
  show initBandwidth [[[[(0 : ℝ)]]], [[[0]]]] = 0
  unfold initBandwidth consecDists npMedian
  norm_num [sortR, List.insertionSort, List.orderedInsert, flat, sqDistL,
    Real.sqrt_zero]

/-- C6: in the composite triple-label evaluator each point's composite
label equals `100·l1 + 10·l2 + l3` of its three independently classified
sub-images, a point is flagged confident iff all three sub-classification
confidences exceed the threshold, and a batch whose three sub-images always
classify to (1, 2, 3) gets composite label 123 at every point. -/
theorem C6_composite_labels (opts : Opts) (clf : Point → Fin 10 × ℝ)
    (points : List Point) (hbs : 0 < opts.tf_run_batch_size) :
    (mnist3_classification opts clf points).1
      = points.map (fun p =>
          100 * (((clf (split3 opts p).1).1 : ℕ))
            + 10 * (((clf (split3 opts p).2.1).1 : ℕ))
            + (((clf (split3 opts p).2.2).1 : ℕ)))
    ∧ (mnist3_classification opts clf points).2.2
      = points.map (fun p =>
          decide (opts.digit_classification_threshold < (clf (split3 opts p).1).2
            ∧ opts.digit_classification_threshold < (clf (split3 opts p).2.1).2
            ∧ opts.digit_classification_threshold < (clf (split3 opts p).2.2).2))
    ∧ ((∀ p ∈ points, (clf (split3 opts p).1).1 = 1 ∧ (clf (split3 opts p).2.1).1 = 2
          ∧ (clf (split3 opts p).2.2).1 = 3) →
        ∀ d ∈ (mnist3_classification opts clf points).1, d = 123) := by
  have h := mnist3_classification_eq opts clf points hbs
  refine ⟨by rw [h], ?_, ?_⟩
  · rw [h]
    apply List.map_congr_left
    intro p _
    rw [Bool.decide_and, Bool.decide_and, ← Bool.and_assoc]
  · intro hcl d hd
    rw [h] at hd
    simp only [List.mem_map] at hd
    obtain ⟨p, hp, rfl⟩ := hd
    obtain ⟨h1, h2, h3⟩ := hcl p hp
    rw [h1, h2, h3]
    decide

/-- Witness for C6: a one-row image with three channels holding the values
1, 2, 3, split channelwise, with a classifier reading off the value. -/
theorem C6_composite_labels_witness :
    0 < (Opts.mk "mnist3" false 2 (999/1000) true).tf_run_batch_size
    ∧ (∀ p ∈ ([[[[(1 : ℝ), 2, 3]]]] : List Point),
        ((fun q => ((⟨min 9 ⌊(flat q).headD 0⌋₊, by omega⟩ : Fin 10), (1 : ℝ)))
            ((split3 (Opts.mk "mnist3" false 2 (999/1000) true) p).1)).1 = 1
        ∧ ((fun q => ((⟨min 9 ⌊(flat q).headD 0⌋₊, by omega⟩ : Fin 10), (1 : ℝ)))
            ((split3 (Opts.mk "mnist3" false 2 (999/1000) true) p).2.1)).1 = 2
        ∧ ((fun q => ((⟨min 9 ⌊(flat q).headD 0⌋₊, by omega⟩ : Fin 10), (1 : ℝ)))
            ((split3 (Opts.mk "mnist3" false 2 (999/1000) true) p).2.2)).1 = 3)
    ∧ (∀ d ∈ (mnist3_classification (Opts.mk "mnist3" false 2 (999/1000) true)
          (fun q => ((⟨min 9 ⌊(flat q).headD 0⌋₊, by omega⟩ : Fin 10), (1 : ℝ)))
          ([[[[(1 : ℝ), 2, 3]]]] : List Point)).1, d = 123) := by
  have hcl : ∀ p ∈ ([[[[(1 : ℝ), 2, 3]]]] : List Point),
      ((fun q => ((⟨min 9 ⌊(flat q).headD 0⌋₊, by omega⟩ : Fin 10), (1 : ℝ)))
          ((split3 (Opts.mk "mnist3" false 2 (999/1000) true) p).1)).1 = 1
      ∧ ((fun q => ((⟨min 9 ⌊(flat q).headD 0⌋₊, by omega⟩ : Fin 10), (1 : ℝ)))
          ((split3 (Opts.mk "mnist3" false 2 (999/1000) true) p).2.1)).1 = 2
      ∧ ((fun q => ((⟨min 9 ⌊(flat q).headD 0⌋₊, by omega⟩ : Fin 10), (1 : ℝ)))
          ((split3 (Opts.mk "mnist3" false 2 (999/1000) true) p).2.2)).1 = 3 := by
    intro p hp
    simp only [List.mem_singleton] at hp
    subst hp
    refine ⟨?_, ?_, ?_⟩ <;>
      · apply Fin.ext
        simp [split3, flat, Fin.ext_iff, Nat.floor_one, Nat.floor_ofNat] <;> decide
  exact ⟨by norm_num, hcl,
    (C6_composite_labels (Opts.mk "mnist3" false 2 (999/1000) true) _ _ (by norm_num)).2.2 hcl⟩

/-- C4: a discrete evaluation (single-label or composite) in which zero
points are confident returns exactly `(2, 0, 0, mean_confidence)` without
raising an error, the confidence still averaged over all classified points
(over all three sub-scores of all points in the composite variant). -/
theorem C4_zero_confident_sentinel (opts : Opts) (real_points fake_points : List Point)
    (clf : Point → Fin 10 × ℝ) (hbs : 0 < opts.tf_run_batch_size)
    (hne : fake_points ≠ []) :
    ((∀ p ∈ (if opts.input_normalize_sym = true then fake_points.map rescale_to_01
          else fake_points),
        (clf p).2 ≤ opts.digit_classification_threshold) →
      evaluate_mnist opts real_points fake_points clf
        = Except.ok (MetricResult.disc 2 0 0
            (mean ((if opts.input_normalize_sym = true then fake_points.map rescale_to_01
              else fake_points).map (fun p => (clf p).2)))))
    ∧ ((∀ p ∈ (if opts.input_normalize_sym = true then fake_points.map rescale_to_01
          else fake_points),
        ¬(opts.digit_classification_threshold < (clf (split3 opts p).1).2
          ∧ opts.digit_classification_threshold < (clf (split3 opts p).2.1).2
          ∧ opts.digit_classification_threshold < (clf (split3 opts p).2.2).2)) →
      evaluate_mnist3 opts real_points fake_points clf
        = Except.ok (MetricResult.disc 2 0 0
            (mean (((if opts.input_normalize_sym = true then fake_points.map rescale_to_01
              else fake_points).map (fun p =>
                [(clf (split3 opts p).1).2, (clf (split3 opts p).2.1).2,
                 (clf (split3 opts p).2.2).2])).flatten)))) := by
  have hlen : ¬fake_points.length = 0 := fun h => hne (List.length_eq_zero.mp h)
  constructor
  · intro hno
    simp only [evaluate_mnist]
    rw [if_neg hlen, mnist_classification_eq _ _ _ hbs]
    rw [if_pos ?hc]
    case hc =>
      rw [List.count_eq_zero]
      intro hmem
      simp only [List.mem_map] at hmem
      obtain ⟨p, hp, hdec⟩ := hmem
      exact absurd (of_decide_eq_true hdec) (not_lt.mpr (hno p hp))
  · intro hno
    simp only [evaluate_mnist3]
    rw [if_neg hlen, mnist3_classification_eq _ _ _ hbs]
    rw [if_pos ?hc3]
    case hc3 =>
      rw [List.count_eq_zero]
      intro hmem
      simp only [List.mem_map] at hmem
      obtain ⟨p, hp, hdec⟩ := hmem
      rw [Bool.and_assoc, Bool.and_eq_true, Bool.and_eq_true,
        decide_eq_true_eq, decide_eq_true_eq, decide_eq_true_eq] at hdec
      exact absurd hdec (hno p hp)

/-- Witness for C4: one unclassifiable point with confidence 0 under
threshold 1/2, for both discrete evaluators. -/
theorem C4_zero_confident_sentinel_witness :
    0 < (2 : ℕ) ∧ ([[[[(0 : ℝ)]]]] : List Point) ≠ []
    ∧ evaluate_mnist (Opts.mk "mnist" false 2 (1/2) false) [] [[[[0]]]]
        (fun _ => ((0 : Fin 10), (0 : ℝ)))
      = Except.ok (MetricResult.disc 2 0 0
          (mean (([[[[(0 : ℝ)]]]] : List Point).map (fun _ => (0 : ℝ)))))
    ∧ evaluate_mnist3 (Opts.mk "mnist3" false 2 (1/2) false) [] [[[[0]]]]
        (fun _ => ((0 : Fin 10), (0 : ℝ)))
      = Except.ok (MetricResult.disc 2 0 0
          (mean ((([[[[(0 : ℝ)]]]] : List Point).map
            (fun _ => [(0 : ℝ), 0, 0])).flatten))) := by
  refine ⟨by norm_num, by simp, ?_, ?_⟩
  · exact (C4_zero_confident_sentinel (Opts.mk "mnist" false 2 (1/2) false) [] _ _
      (by norm_num) (by simp)).1 (by intro p _; norm_num)
  · exact (C4_zero_confident_sentinel (Opts.mk "mnist3" false 2 (1/2) false) [] _ _
      (by norm_num) (by simp)).2 (by intro p _; norm_num)

/-- C1: a continuous-data evaluation (dataset kind `gmm` or `circle_gmm`)
with at least 2 fake points returns the pair `(log_p, coverage)`: `log_p`
is the mean log-density of the real points under the Gaussian KDE fitted
on the fake points with the chosen bandwidth, and `coverage` is `1` minus
the fraction of real points whose log-density is at most the 5th
percentile of the fake points' own log-densities under that same fitted
KDE. -/
theorem C1_continuous_eval (opts : Opts) ( step : ℕ)
    (real_points fake_points : List Point)
    (validation_fake_points : Option (List Point)) (clf : Point → Fin 10 × ℝ)
    (hds : opts.dataset = "gmm" ∨ opts.dataset = "circle_gmm")
    (hlen : 2 ≤ fake_points.length) :
    evaluate opts step real_points fake_points validation_fake_points clf
      = Except.ok (some (MetricResult.cont
          (mean ((real_points.map flat).map
            (kdeScore (chosenBandwidth fake_points validation_fake_points)
              (fake_points.map flat))))
          (1 - (((real_points.map flat).map
                  (kdeScore (chosenBandwidth fake_points validation_fake_points)
                    (fake_points.map flat))).countP
                (fun x => decide (x ≤ npPercentile
                  ((fake_points.map flat).map
                    (kdeScore (chosenBandwidth fake_points validation_fake_points)
                      (fake_points.map flat))) 5)) : ℝ)
              / (real_points.length : ℝ)))) := by
  have hvec : evaluate_vec real_points fake_points validation_fake_points
      = (mean ((real_points.map flat).map
          (kdeScore (chosenBandwidth fake_points validation_fake_points)
            (fake_points.map flat))),
        1 - (((real_points.map flat).map
                (kdeScore (chosenBandwidth fake_points validation_fake_points)
                  (fake_points.map flat))).countP
              (fun x => decide (x ≤ npPercentile
                ((fake_points.map flat).map
                  (kdeScore (chosenBandwidth fake_points validation_fake_points)
                    (fake_points.map flat))) 5)) : ℝ)
            / (real_points.length : ℝ)) := by
    simp only [evaluate_vec, chosenBandwidth]
    rw [mean_indicator_eq, List.length_map, List.length_map]
  rcases hds with h | h
  · unfold evaluate
    rw [h, if_pos rfl, hvec]
  · unfold evaluate
    rw [h, if_neg (by decide : ¬("circle_gmm" = "gmm")), if_pos rfl, hvec]

/-- Witness for C1 on a two-point fake batch and one real point. -/
theorem C1_continuous_eval_witness :
    ((Opts.mk "gmm" false 100 (999/1000) false).dataset = "gmm"
      ∨ (Opts.mk "gmm" false 100 (999/1000) false).dataset = "circle_gmm")
    ∧ 2 ≤ ([[[[(0 : ℝ)]]], [[[1]]]] : List Point).length
    ∧ evaluate (Opts.mk "gmm" false 100 (999/1000) false) 0 [[[[0]]]]
        ([[[[(0 : ℝ)]]], [[[1]]]] : List Point) none (fun _ => ((0 : Fin 10), (0 : ℝ)))
      = Except.ok (some (MetricResult.cont
          (mean ((([[[[(0 : ℝ)]]]] : List Point).map flat).map
            (kdeScore (chosenBandwidth ([[[[(0 : ℝ)]]], [[[1]]]] : List Point) none)
              (([[[[(0 : ℝ)]]], [[[1]]]] : List Point).map flat))))
          (1 - (((([[[[(0 : ℝ)]]]] : List Point).map flat).map
                  (kdeScore (chosenBandwidth ([[[[(0 : ℝ)]]], [[[1]]]] : List Point) none)
                    (([[[[(0 : ℝ)]]], [[[1]]]] : List Point).map flat))).countP
                (fun x => decide (x ≤ npPercentile
                  ((([[[[(0 : ℝ)]]], [[[1]]]] : List Point).map flat).map
                    (kdeScore (chosenBandwidth ([[[[(0 : ℝ)]]], [[[1]]]] : List Point) none)
                      (([[[[(0 : ℝ)]]], [[[1]]]] : List Point).map flat))) 5)) : ℝ)
              / (([[[[(0 : ℝ)]]]] : List Point).length : ℝ)))) :=
  ⟨Or.inl rfl, by norm_num,
    C1_continuous_eval _ 0 _ _ none _ (Or.inl rfl) (by norm_num)⟩

/-- C10: in the single-label discrete evaluator, whenever at least one
prediction is confident the returned coverage is at most 0.9 — the 5th
percentile of the 10-bin histogram `phat` is at least its minimum bin, so
at least one label counts as not covered — and coverage never equals 1. -/
theorem C10_single_label_coverage (opts : Opts) (real_points fake_points : List Point)
    (clf : Point → Fin 10 × ℝ) (hbs : 0 < opts.tf_run_batch_size)
    (hne : fake_points ≠ [])
    (hconf : ∃ p ∈ (if opts.input_normalize_sym = true then fake_points.map rescale_to_01
        else fake_points), opts.digit_classification_threshold < (clf p).2) :
    ∃ JS C C_actual conf,
      evaluate_mnist opts real_points fake_points clf
        = Except.ok (MetricResult.disc JS C C_actual conf)
      ∧ C ≤ 9 / 10 ∧ C ≠ 1 := by
  have hlen0 : ¬fake_points.length = 0 := fun h => hne (List.length_eq_zero.mp h)
  simp only [evaluate_mnist]
  rw [if_neg hlen0, mnist_classification_eq _ _ _ hbs,
    if_neg (count_true_ne_zero _ _ hconf)]
  refine ⟨_, _, _, _, rfl, ?_, ?_⟩
  · exact (phat_coverage_bound _).1
  · exact (phat_coverage_bound _).2

/-- Witness for C10: one confidently classified point under threshold 1/2. -/
theorem C10_single_label_coverage_witness :
    0 < (2 : ℕ) ∧ ([[[[(0 : ℝ)]]]] : List Point) ≠ []
    ∧ (∃ p ∈ ([[[[(0 : ℝ)]]]] : List Point),
        (1 : ℝ) / 2 < ((fun (_ : Point) => ((0 : Fin 10), (1 : ℝ))) p).2)
    ∧ (∃ JS C C_actual conf,
        evaluate_mnist (Opts.mk "mnist" false 2 (1/2) false) [] [[[[0]]]]
          (fun _ => ((0 : Fin 10), (1 : ℝ)))
          = Except.ok (MetricResult.disc JS C C_actual conf)
        ∧ C ≤ 9 / 10 ∧ C ≠ 1) := by
  refine ⟨by norm_num, by simp, ⟨[[[(0 : ℝ)]]], by simp, by norm_num⟩, ?_⟩
  exact C10_single_label_coverage (Opts.mk "mnist" false 2 (1/2) false) [] _ _
    (by norm_num) (by simp) ⟨[[[(0 : ℝ)]]], by simp, by norm_num⟩

theorem js_div_uniform_uniform_ten :
    js_div_uniform [0, 1, 2, 3, 4, 5, 6, 7, 8, 9] 10 = 0 := by
  have hbc : npBincount [0, 1, 2, 3, 4, 5, 6, 7, 8, 9] 10
      = [1, 1, 1, 1, 1, 1, 1, 1, 1, 1] := by decide
  simp only [js_div_uniform, hbc]
  norm_num [klD, List.zipWith, List.replicate, List.zip, Real.log_one]

theorem js_div_uniform_skewed_pos :
    0 < js_div_uniform [0, 1, 2, 3, 4, 5, 6, 7, 8, 9, 9] 10 := by
  have hbc : npBincount [0, 1, 2, 3, 4, 5, 6, 7, 8, 9, 9] 10
      = [1, 1, 1, 1, 1, 1, 1, 1, 1, 2] := by decide
  simp only [js_div_uniform, hbc]
  norm_num [klD, List.zipWith, List.replicate, List.zip]
  have e1 : Real.log ((20 : ℝ) / 21) = -Real.log (21 / 20) := by
    rw [← Real.log_inv]; norm_num
  have e2 : Real.log ((22 : ℝ) / 21) = -Real.log (21 / 22) := by
    rw [← Real.log_inv]; norm_num
  have e3 : Real.log ((22 : ℝ) / 31) = -Real.log (31 / 22) := by
    rw [← Real.log_inv]; norm_num
  have e4 : Real.log ((40 : ℝ) / 31) = -Real.log (31 / 40) := by
    rw [← Real.log_inv]; norm_num
  have b1 : Real.log ((21 : ℝ) / 20) < 1 / 20 := by
    have := Real.log_lt_sub_one_of_pos (show (0 : ℝ) < 21 / 20 by norm_num) (by norm_num)
    linarith
  have b2 : Real.log ((21 : ℝ) / 22) < -(1 / 22) := by
    have := Real.log_lt_sub_one_of_pos (show (0 : ℝ) < 21 / 22 by norm_num) (by norm_num)
    linarith
  have b4 : Real.log ((31 : ℝ) / 40) < -(9 / 40) := by
    have := Real.log_lt_sub_one_of_pos (show (0 : ℝ) < 31 / 40 by norm_num) (by norm_num)
    linarith
  have b3 : Real.log ((31 : ℝ) / 22) ≤ 4 / 27 + 5 / 22 := by
    have hsplit : ((31 : ℝ) / 22) = (31 / 27) * (27 / 22) := by norm_num
    have ha := Real.log_le_sub_one_of_pos (show (0 : ℝ) < 31 / 27 by norm_num)
    have hb := Real.log_le_sub_one_of_pos (show (0 : ℝ) < 27 / 22 by norm_num)
    rw [hsplit, Real.log_mul (by norm_num) (by norm_num)]
    linarith
  rw [e1, e2, e3, e4]
  linarith

/-- C2 (amended): in the single-label discrete evaluator, when at least one
prediction is confident, the returned js_divergence equals the
Jensen-Shannon divergence between the uniform distribution over the 10
labels and the empirical histogram built from ALL predictions —
non-confident predictions are included in the histogram handed to
`js_div_uniform`. -/
theorem C2_js_over_all_predictions (opts : Opts) (real_points fake_points : List Point)
    (clf : Point → Fin 10 × ℝ) (hbs : 0 < opts.tf_run_batch_size)
    (hne : fake_points ≠ [])
    (hconf : ∃ p ∈ (if opts.input_normalize_sym = true then fake_points.map rescale_to_01
        else fake_points), opts.digit_classification_threshold < (clf p).2) :
    jsOfResult (evaluate_mnist opts real_points fake_points clf)
      = some (js_div_uniform
          ((if opts.input_normalize_sym = true then fake_points.map rescale_to_01
            else fake_points).map (fun p => ((clf p).1).val)) 10) := by
  have hlen0 : ¬fake_points.length = 0 := fun h => hne (List.length_eq_zero.mp h)
  simp only [evaluate_mnist]
  rw [if_neg hlen0, mnist_classification_eq _ _ _ hbs,
    if_neg (count_true_ne_zero _ _ hconf)]
  simp only [jsOfResult, List.map_map]
  rfl

/-- Witness for C2 (amended): one confident point under threshold 1/2. -/
theorem C2_js_over_all_predictions_witness :
    0 < (2 : ℕ) ∧ ([[[[(0 : ℝ)]]]] : List Point) ≠ []
    ∧ (∃ p ∈ ([[[[(0 : ℝ)]]]] : List Point),
        (1 : ℝ) / 2 < ((fun (_ : Point) => ((0 : Fin 10), (1 : ℝ))) p).2)
    ∧ jsOfResult (evaluate_mnist (Opts.mk "mnist" false 2 (1/2) false) [] [[[[0]]]]
        (fun _ => ((0 : Fin 10), (1 : ℝ))))
      = some (js_div_uniform (([[[[(0 : ℝ)]]]] : List Point).map
          (fun p => (((fun (_ : Point) => ((0 : Fin 10), (1 : ℝ))) p).1).val)) 10) := by
  refine ⟨by norm_num, by simp, ⟨[[[(0 : ℝ)]]], by simp, by norm_num⟩, ?_⟩
  exact C2_js_over_all_predictions (Opts.mk "mnist" false 2 (1/2) false) [] _ _
    (by norm_num) (by simp) ⟨[[[(0 : ℝ)]]], by simp, by norm_num⟩

/-- C2 counterexample: for the batch `fakeC2` under `clfC2` with threshold
0.999, the ten points with at most 10 rows are confidently classified to
the ten distinct digits 0..9 (a perfectly uniform confident histogram,
divergence 0), the eleventh point is a non-confident 9, and the evaluator
returns the divergence of ALL eleven digits, which is strictly positive —
so the returned value differs from the JS divergence of the
confident-predictions histogram. -/
theorem C2_confident_only_counterexample :
    (∃ p ∈ fakeC2, (999 : ℝ) / 1000 < (clfC2 p).2)
    ∧ (((fakeC2.map (fun p => (clfC2 p).1)).zip
          (fakeC2.map (fun p => decide ((999 : ℝ) / 1000 < (clfC2 p).2)))).filterMap
        (fun dc => if dc.2 = true then some dc.1 else none)).map Fin.val
      = [0, 1, 2, 3, 4, 5, 6, 7, 8, 9]
    ∧ jsOfResult (evaluate_mnist (Opts.mk "mnist" false 100 (999/1000) false) []
        fakeC2 clfC2)
      = some (js_div_uniform [0, 1, 2, 3, 4, 5, 6, 7, 8, 9, 9] 10)
    ∧ js_div_uniform [0, 1, 2, 3, 4, 5, 6, 7, 8, 9, 9] 10
      ≠ js_div_uniform [0, 1, 2, 3, 4, 5, 6, 7, 8, 9] 10 := by
  have hT : decide ((999 : ℝ) / 1000 < 1) = true := decide_eq_true (by norm_num)
  have hF : decide ((999 : ℝ) / 1000 < 0) = false := decide_eq_false (by norm_num)
  have hconf : ∃ p ∈ fakeC2,
      (Opts.mk "mnist" false 100 (999/1000) false).digit_classification_threshold
        < (clfC2 p).2 :=
    ⟨List.replicate 1 [[0]], by simp [fakeC2], by norm_num [clfC2]⟩
  refine ⟨⟨List.replicate 1 [[0]], by simp [fakeC2], by norm_num [clfC2]⟩, ?_, ?_, ?_⟩
  · simp [fakeC2, clfC2, hT, hF]
    decide
  · have hlen0 : ¬fakeC2.length = 0 := by simp [fakeC2]
    simp only [evaluate_mnist]
    rw [if_neg hlen0]
    rw [if_neg (by decide :
      ¬((Opts.mk "mnist" false 100 (999/1000) false).input_normalize_sym = true))]
    rw [mnist_classification_eq _ _ _ (by norm_num)]
    rw [if_neg (count_true_ne_zero _ _ hconf)]
    have hdig : (fakeC2.map (fun p => (clfC2 p).1)).map Fin.val
        = [0, 1, 2, 3, 4, 5, 6, 7, 8, 9, 9] := by
      simp [fakeC2, clfC2]
      decide
    simp only [jsOfResult]
    rw [hdig]
  · rw [js_div_uniform_uniform_ten]
    exact ne_of_gt js_div_uniform_skewed_pos

/-- Closed form of the KDE log-density for a one-dimensional two-point fit
`{0, e}` scored at `1`. -/
theorem kdeScore_pair_eq (h e : ℝ) :
    kdeScore h [[0], [e]] [1]
      = Real.log ((Real.exp (-1 / (2 * h ^ 2)) + Real.exp (-((1 - e) ^ 2) / (2 * h ^ 2)))
          / (2 * Real.sqrt (2 * Real.pi * h ^ 2))) := by
  unfold kdeScore sqDistL
  norm_num [List.zipWith]
  rw [← Real.sqrt_eq_rpow]

theorem kde_pair_ub (h e : ℝ) (hh : 0 < h) (he0 : 0 ≤ e) (he1 : e ≤ 1) :
    kdeScore h [[0], [e]] [1] ≤ -((1 - e) ^ 2) / (2 * h ^ 2) - Real.log h := by
  rw [kdeScore_pair_eq]
  have hpi : (3 : ℝ) < Real.pi := Real.pi_gt_three
  have hsq : Real.sqrt (2 * Real.pi * h ^ 2) = Real.sqrt (2 * Real.pi) * h := by
    rw [Real.sqrt_mul (by positivity), Real.sqrt_sq hh.le]
  have hs1 : 1 ≤ Real.sqrt (2 * Real.pi) := by
    rw [show (1 : ℝ) = Real.sqrt 1 from Real.sqrt_one.symm]
    exact Real.sqrt_le_sqrt (by nlinarith)
  have hE : Real.exp (-1 / (2 * h ^ 2)) ≤ Real.exp (-((1 - e) ^ 2) / (2 * h ^ 2)) := by
    rw [Real.exp_le_exp]
    have hden : 0 < 2 * h ^ 2 := by positivity
    apply (div_le_div_right hden).mpr
    nlinarith
  have hnum_pos : 0 < Real.exp (-1 / (2 * h ^ 2)) + Real.exp (-((1 - e) ^ 2) / (2 * h ^ 2)) :=
    by positivity
  have hden_pos : 0 < 2 * (Real.sqrt (2 * Real.pi) * h) := by
    have : 0 < Real.sqrt (2 * Real.pi) := lt_of_lt_of_le one_pos hs1
    positivity
  have hstep1 : (Real.exp (-1 / (2 * h ^ 2)) + Real.exp (-((1 - e) ^ 2) / (2 * h ^ 2)))
      / (2 * (Real.sqrt (2 * Real.pi) * h))
      ≤ (2 * Real.exp (-((1 - e) ^ 2) / (2 * h ^ 2))) / (2 * (Real.sqrt (2 * Real.pi) * h)) :=
    (div_le_div_right hden_pos).mpr (by linarith)
  have hstep2 : (2 * Real.exp (-((1 - e) ^ 2) / (2 * h ^ 2)))
      / (2 * (Real.sqrt (2 * Real.pi) * h))
      ≤ (2 * Real.exp (-((1 - e) ^ 2) / (2 * h ^ 2))) / (2 * h) := by
    apply div_le_div_of_nonneg_left (by positivity) (by positivity)
    nlinarith [Real.exp_pos (-((1 - e) ^ 2) / (2 * h ^ 2))]
  have hstep3 : (2 * Real.exp (-((1 - e) ^ 2) / (2 * h ^ 2))) / (2 * h)
      = Real.exp (-((1 - e) ^ 2) / (2 * h ^ 2)) / h := by
    field_simp
    ring
  rw [hsq]
  calc Real.log ((Real.exp (-1 / (2 * h ^ 2)) + Real.exp (-((1 - e) ^ 2) / (2 * h ^ 2)))
        / (2 * (Real.sqrt (2 * Real.pi) * h)))
      ≤ Real.log (Real.exp (-((1 - e) ^ 2) / (2 * h ^ 2)) / h) := by
        apply Real.log_le_log (by positivity)
        rw [← hstep3]
        exact le_trans hstep1 hstep2
    _ = -((1 - e) ^ 2) / (2 * h ^ 2) - Real.log h := by
        rw [Real.log_div (Real.exp_ne_zero _) (ne_of_gt hh), Real.log_exp]

theorem kde_pair_lb (h e : ℝ) (hh : 0 < h) :
    -1 / (2 * h ^ 2) - Real.log 6 - Real.log h ≤ kdeScore h [[0], [e]] [1] := by
  rw [kdeScore_pair_eq]
  have hpi : Real.pi < 3.15 := Real.pi_lt_315
  have hsq : Real.sqrt (2 * Real.pi * h ^ 2) = Real.sqrt (2 * Real.pi) * h := by
    rw [Real.sqrt_mul (by positivity), Real.sqrt_sq hh.le]
  have hs3 : Real.sqrt (2 * Real.pi) ≤ 3 := by
    have h9 : Real.sqrt 9 = 3 := by
      rw [show (9 : ℝ) = 3 ^ 2 by norm_num, Real.sqrt_sq (by norm_num)]
    rw [← h9]
    exact Real.sqrt_le_sqrt (by nlinarith)
  have hs0 : 0 < Real.sqrt (2 * Real.pi) := Real.sqrt_pos.mpr (by positivity)
  have hden_pos : 0 < 2 * (Real.sqrt (2 * Real.pi) * h) := by positivity
  have hE2 : 0 < Real.exp (-((1 - e) ^ 2) / (2 * h ^ 2)) := Real.exp_pos _
  have hstep1 : Real.exp (-1 / (2 * h ^ 2)) / (6 * h)
      ≤ Real.exp (-1 / (2 * h ^ 2)) / (2 * (Real.sqrt (2 * Real.pi) * h)) := by
    apply div_le_div_of_nonneg_left (le_of_lt (Real.exp_pos _)) hden_pos
    nlinarith
  have hstep2 : Real.exp (-1 / (2 * h ^ 2)) / (2 * (Real.sqrt (2 * Real.pi) * h))
      ≤ (Real.exp (-1 / (2 * h ^ 2)) + Real.exp (-((1 - e) ^ 2) / (2 * h ^ 2)))
        / (2 * (Real.sqrt (2 * Real.pi) * h)) :=
    (div_le_div_right hden_pos).mpr (by linarith)
  have hlog6h : Real.log (Real.exp (-1 / (2 * h ^ 2)) / (6 * h))
      = -1 / (2 * h ^ 2) - Real.log 6 - Real.log h := by
    rw [Real.log_div (Real.exp_ne_zero _) (by positivity), Real.log_exp,
      Real.log_mul (by norm_num) (ne_of_gt hh)]
    ring
  rw [hsq, ← hlog6h]
  apply Real.log_le_log (by positivity)
  exact le_trans hstep1 hstep2

/-- Every bandwidth between `2⁻³⁷` and `2⁻²⁴` scores the far-away
validation point `1` below the `-1000000` sentinel for the fit `{0, 2⁻³⁰}`. -/
theorem kde_pair_grid_ub (h : ℝ) (h1 : 1 / 2 ^ 37 ≤ h) (h2 : h ≤ 1 / 2 ^ 24) :
    kdeScore h [[0], [1 / 2 ^ 30]] [1] ≤ -1000000 := by
  have hh : 0 < h := lt_of_lt_of_le (by norm_num) h1
  have hub := kde_pair_ub h (1 / 2 ^ 30) hh (by norm_num) (by norm_num)
  have hterm1 : ((1 - 1 / 2 ^ 30) ^ 2) / (2 * h ^ 2) ≥ (2 : ℝ) ^ 46 := by
    have hd : (1 : ℝ) / 2 / (2 * (1 / 2 ^ 24) ^ 2) ≤ ((1 - 1 / 2 ^ 30) ^ 2) / (2 * h ^ 2) := by
      apply div_le_div (by positivity) (by norm_num) (by positivity) (by nlinarith)
    calc ((2 : ℝ)) ^ 46 = (1 : ℝ) / 2 / (2 * (1 / 2 ^ 24) ^ 2) := by norm_num
      _ ≤ ((1 - 1 / 2 ^ 30) ^ 2) / (2 * h ^ 2) := hd
  have hterm2 : -Real.log h ≤ 26 := by
    have hmono : Real.log ((1 : ℝ) / 2 ^ 37) ≤ Real.log h :=
      Real.log_le_log (by norm_num) h1
    have hl : Real.log ((1 : ℝ) / 2 ^ 37) = -(37 * Real.log 2) := by
      rw [one_div, Real.log_inv, Real.log_pow]
      norm_num
    have hlog2 := Real.log_two_lt_d9
    rw [hl] at hmono
    linarith
  have hfin : -((1 - 1 / 2 ^ 30) ^ 2) / (2 * h ^ 2) ≤ -(2 : ℝ) ^ 46 := by
    have := hterm1
    have h2h : 0 < 2 * h ^ 2 := by positivity
    rw [neg_div]
    linarith
  linarith

theorem log_six_le_two : Real.log (6 : ℝ) ≤ 2 := by
  rw [Real.log_le_iff_le_exp (by norm_num)]
  have he := Real.exp_one_gt_d9
  have h2 : Real.exp 2 = Real.exp 1 * Real.exp 1 := by
    rw [← Real.exp_add]
    norm_num
  nlinarith

/-- The initial bandwidth `2⁻³⁰` scores strictly worse than the candidate
`2⁻²⁴` on the validation point `1` for the fit `{0, 2⁻³⁰}`. -/
theorem kde_pair_compare :
    kdeScore (1 / 2 ^ 30) [[0], [1 / 2 ^ 30]] [1]
      < kdeScore (1 / 2 ^ 24) [[0], [1 / 2 ^ 30]] [1] := by
  have hub := kde_pair_ub (1 / 2 ^ 30) (1 / 2 ^ 30) (by norm_num) (by norm_num) (by norm_num)
  have hlb := kde_pair_lb (1 / 2 ^ 24) (1 / 2 ^ 30) (by norm_num)
  have hlog2u := Real.log_two_lt_d9
  have hlog2l := Real.log_two_gt_d9
  have hlogsmall : Real.log ((1 : ℝ) / 2 ^ 30) = -(30 * Real.log 2) := by
    rw [one_div, Real.log_inv, Real.log_pow]
    norm_num
  have hlogbig : Real.log ((1 : ℝ) / 2 ^ 24) = -(24 * Real.log 2) := by
    rw [one_div, Real.log_inv, Real.log_pow]
    norm_num
  have hlog6 := log_six_le_two
  have hterm : -((1 - 1 / 2 ^ 30) ^ 2) / (2 * (1 / 2 ^ 30 : ℝ) ^ 2) ≤ -(2 : ℝ) ^ 58 := by
    have hx : ((1 - 1 / 2 ^ 30) ^ 2) / (2 * (1 / 2 ^ 30 : ℝ) ^ 2) ≥ (2 : ℝ) ^ 58 := by
      have hd : (1 : ℝ) / 2 / (2 * (1 / 2 ^ 30) ^ 2)
          ≤ ((1 - 1 / 2 ^ 30) ^ 2) / (2 * (1 / 2 ^ 30 : ℝ) ^ 2) := by
        apply div_le_div (by positivity) (by norm_num) (by positivity) (by norm_num)
      calc ((2 : ℝ)) ^ 58 = (1 : ℝ) / 2 / (2 * (1 / 2 ^ 30) ^ 2) := by norm_num
        _ ≤ _ := hd
    rw [neg_div]
    linarith
  have hden : -1 / (2 * ((1 : ℝ) / 2 ^ 24) ^ 2) = -(2 : ℝ) ^ 47 := by norm_num
  rw [hlogsmall] at hub
  rw [hden, hlogbig] at hlb
  calc kdeScore (1 / 2 ^ 30) [[0], [1 / 2 ^ 30]] [1]
      ≤ -((1 - 1 / 2 ^ 30) ^ 2) / (2 * (1 / 2 ^ 30 : ℝ) ^ 2) - -(30 * Real.log 2) := hub
    _ ≤ -(2 : ℝ) ^ 58 + 30 * Real.log 2 := by linarith
    _ < -(2 : ℝ) ^ 47 - 2 + 24 * Real.log 2 := by nlinarith
    _ ≤ -(2 : ℝ) ^ 47 - Real.log 6 - -(24 * Real.log 2) := by linarith
    _ ≤ kdeScore (1 / 2 ^ 24) [[0], [1 / 2 ^ 30]] [1] := hlb

/-- C5 (amended): the candidate grid has exactly 14 entries (the initial
estimate scaled by 2^k for k = -7..6); with no validation batch the initial
estimate is used unchanged; and when a validation batch is supplied and at
least one candidate scores above the `-1000000` sentinel, the selected
bandwidth is a grid candidate maximizing the mean validation log-density
under the KDE fitted on the fitting batch. -/
theorem C5_bandwidth_grid_argmax (bw : ℝ) (fakeF v : List (List ℝ)) :
    (bGrid bw).length = 14
    ∧ selectBandwidth bw fakeF none = bw
    ∧ ((∃ b ∈ bGrid bw, -1000000 < mean (v.map (kdeScore b fakeF))) →
        selectBandwidth bw fakeF (some v) ∈ bGrid bw
        ∧ ∀ b ∈ bGrid bw, mean (v.map (kdeScore b fakeF))
            ≤ mean (v.map (kdeScore (selectBandwidth bw fakeF (some v)) fakeF))) := by
  refine ⟨by unfold bGrid; rw [List.length_map, List.length_range], rfl, ?_⟩
  intro hex
  rcases foldl_best_spec (fun b => mean (v.map (kdeScore b fakeF)))
      (bGrid bw) bw (-1000000) with ⟨heq, hall⟩ | ⟨hmem, hre, hlt, hall⟩
  · obtain ⟨b, hb, hgt⟩ := hex
    exact absurd (hall b hb) (not_le.mpr hgt)
  · refine ⟨hmem, ?_⟩
    intro b hb
    have h := hall b hb
    rw [hre] at h
    exact h

/-- Witness for C5 (amended): fitting batch `{0, 1}`, validation point `1`,
initial bandwidth 1, whose unscaled grid candidate scores above the
sentinel. -/
theorem C5_bandwidth_grid_argmax_witness :
    (∃ b ∈ bGrid (1 : ℝ), -1000000 < mean ([[(1 : ℝ)]].map (kdeScore b [[(0 : ℝ)], [1]])))
    ∧ (bGrid (1 : ℝ)).length = 14
    ∧ selectBandwidth 1 [[(0 : ℝ)], [1]] none = 1
    ∧ (selectBandwidth 1 [[(0 : ℝ)], [1]] (some [[(1 : ℝ)]]) ∈ bGrid (1 : ℝ)
      ∧ ∀ b ∈ bGrid (1 : ℝ), mean ([[(1 : ℝ)]].map (kdeScore b [[(0 : ℝ)], [1]]))
          ≤ mean ([[(1 : ℝ)]].map
              (kdeScore (selectBandwidth 1 [[(0 : ℝ)], [1]] (some [[(1 : ℝ)]]))
                [[(0 : ℝ)], [1]]))) := by
  have hex : ∃ b ∈ bGrid (1 : ℝ),
      -1000000 < mean ([[(1 : ℝ)]].map (kdeScore b [[(0 : ℝ)], [1]])) := by
    refine ⟨1 * (2 : ℝ) ^ (((7 : ℕ) : ℤ) - 7),
      List.mem_map.mpr ⟨7, List.mem_range.mpr (by norm_num : (7 : ℕ) < 14), rfl⟩, ?_⟩
    have h1 : (1 : ℝ) * (2 : ℝ) ^ (((7 : ℕ) : ℤ) - 7) = 1 := by norm_num
    rw [h1]
    have hmean : mean ([[(1 : ℝ)]].map (kdeScore 1 [[(0 : ℝ)], [1]]))
        = kdeScore 1 [[(0 : ℝ)], [1]] [1] := by
      simp [mean_singleton]
    rw [hmean]
    have hlb := kde_pair_lb 1 1 (by norm_num)
    have h6 := log_six_le_two
    have hl1 : Real.log (1 : ℝ) = 0 := Real.log_one
    nlinarith [hlb]
  exact ⟨hex, (C5_bandwidth_grid_argmax 1 [[(0 : ℝ)], [1]] [[(1 : ℝ)]]).1,
    (C5_bandwidth_grid_argmax 1 [[(0 : ℝ)], [1]] [[(1 : ℝ)]]).2.1,
    (C5_bandwidth_grid_argmax 1 [[(0 : ℝ)], [1]] [[(1 : ℝ)]]).2.2 hex⟩

/-- C5 counterexample: for the fake batch `{[[[0]]], [[[2⁻³⁰]]]}` with
validation point `[[[1]]]`, every candidate scores below the `-1000000`
sentinel, so the evaluator keeps the initial bandwidth `2⁻³⁰` even though
the grid candidate `2⁻³⁰·2⁶ = 2⁻²⁴` achieves a strictly higher mean
validation log-density — the final bandwidth is not the maximizing
candidate. -/
theorem C5_initial_kept_counterexample :
    (([[[[(0 : ℝ)]]], [[[1 / 2 ^ 30]]]] : List Point).map flat) = [[(0 : ℝ)], [1 / 2 ^ 30]]
    ∧ (([[[[(1 : ℝ)]]]] : List Point).map flat) = [[(1 : ℝ)]]
    ∧ chosenBandwidth ([[[[(0 : ℝ)]]], [[[1 / 2 ^ 30]]]] : List Point) (some [[[[1]]]])
        = 1 / 2 ^ 30
    ∧ (1 / 2 ^ 30 : ℝ) * (2 : ℝ) ^ (((13 : ℕ) : ℤ) - 7) ∈ bGrid (1 / 2 ^ 30)
    ∧ mean ([[(1 : ℝ)]].map (kdeScore (1 / 2 ^ 30) [[(0 : ℝ)], [1 / 2 ^ 30]]))
        < mean ([[(1 : ℝ)]].map
            (kdeScore ((1 / 2 ^ 30 : ℝ) * (2 : ℝ) ^ (((13 : ℕ) : ℤ) - 7))
              [[(0 : ℝ)], [1 / 2 ^ 30]])) := by
  have hflatf : (([[[[(0 : ℝ)]]], [[[1 / 2 ^ 30]]]] : List Point).map flat)
      = [[(0 : ℝ)], [1 / 2 ^ 30]] := by
    simp [flat]
  have hflatv : (([[[[(1 : ℝ)]]]] : List Point).map flat) = [[(1 : ℝ)]] := by
    simp [flat]
  have hball : ∀ b ∈ bGrid (1 / 2 ^ 30 : ℝ),
      mean ([[(1 : ℝ)]].map (kdeScore b [[(0 : ℝ)], [1 / 2 ^ 30]])) ≤ -1000000 := by
    intro b hb
    unfold bGrid at hb
    obtain ⟨k, hk, rfl⟩ := List.mem_map.mp hb
    have hk14 : k < 14 := List.mem_range.mp hk
    have hbl : (1 : ℝ) / 2 ^ 37 ≤ 1 / 2 ^ 30 * (2 : ℝ) ^ ((k : ℤ) - 7) := by
      calc (1 : ℝ) / 2 ^ 37 = 1 / 2 ^ 30 * (2 : ℝ) ^ ((-7 : ℤ)) := by norm_num
        _ ≤ 1 / 2 ^ 30 * (2 : ℝ) ^ ((k : ℤ) - 7) :=
            mul_le_mul_of_nonneg_left
              (zpow_le_zpow_right₀ one_le_two (by omega)) (by norm_num)
    have hbu : 1 / 2 ^ 30 * (2 : ℝ) ^ ((k : ℤ) - 7) ≤ (1 : ℝ) / 2 ^ 24 := by
      calc 1 / 2 ^ 30 * (2 : ℝ) ^ ((k : ℤ) - 7)
          ≤ 1 / 2 ^ 30 * (2 : ℝ) ^ ((6 : ℤ)) :=
            mul_le_mul_of_nonneg_left
              (zpow_le_zpow_right₀ one_le_two (by omega)) (by norm_num)
        _ = (1 : ℝ) / 2 ^ 24 := by norm_num
    have hmean : mean ([[(1 : ℝ)]].map
        (kdeScore (1 / 2 ^ 30 * (2 : ℝ) ^ ((k : ℤ) - 7)) [[(0 : ℝ)], [1 / 2 ^ 30]]))
        = kdeScore (1 / 2 ^ 30 * (2 : ℝ) ^ ((k : ℤ) - 7)) [[(0 : ℝ)], [1 / 2 ^ 30]] [1] := by
      simp [mean_singleton]
    rw [hmean]
    exact kde_pair_grid_ub _ hbl hbu
  refine ⟨hflatf, hflatv, ?_, ?_, ?_⟩
  · have hinit : initBandwidth ([[[[(0 : ℝ)]]], [[[1 / 2 ^ 30]]]] : List Point)
        = 1 / 2 ^ 30 := by
      unfold initBandwidth consecDists npMedian
      norm_num [sortR, List.insertionSort, List.orderedInsert, flat, sqDistL,
        List.zipWith]
      rw [show (1152921504606846976 : ℝ) = 1073741824 ^ 2 by norm_num,
        Real.sqrt_sq (by norm_num)]
      norm_num
    rw [chosenBandwidth_some, hflatf, hflatv, hinit]
    rcases foldl_best_spec
        (fun b => mean ([[(1 : ℝ)]].map (kdeScore b [[(0 : ℝ)], [1 / 2 ^ 30]])))
        (bGrid (1 / 2 ^ 30)) (1 / 2 ^ 30) (-1000000) with ⟨heq, _⟩ | ⟨hmem, hre, hlt, _⟩
    · rw [heq]
    · have h := hball _ hmem
      rw [← hre] at h
      exact absurd hlt (not_lt.mpr h)
  · exact List.mem_map.mpr ⟨13, List.mem_range.mpr (by norm_num : (13 : ℕ) < 14), rfl⟩
  · have hc : (1 / 2 ^ 30 : ℝ) * (2 : ℝ) ^ (((13 : ℕ) : ℤ) - 7) = 1 / 2 ^ 24 := by
      norm_num
    rw [hc]
    have hm1 : mean ([[(1 : ℝ)]].map (kdeScore (1 / 2 ^ 30) [[(0 : ℝ)], [1 / 2 ^ 30]]))
        = kdeScore (1 / 2 ^ 30) [[(0 : ℝ)], [1 / 2 ^ 30]] [1] := by
      simp [mean_singleton]
    have hm2 : mean ([[(1 : ℝ)]].map (kdeScore (1 / 2 ^ 24) [[(0 : ℝ)], [1 / 2 ^ 30]]))
        = kdeScore (1 / 2 ^ 24) [[(0 : ℝ)], [1 / 2 ^ 30]] [1] := by
      simp [mean_singleton]
    rw [hm1, hm2]
    exact kde_pair_compare

end

